import Mathlib

/-!
A shallow embedding of `src/alacritty/src/renderer/background.rs`
(`BackgroundRenderer`).

Modelling decisions:
* `f32` values are modelled as rationals (`ℚ`) with exact arithmetic.
* GL calls are modelled as an emitted trace of `GLCmd` events; raw GL enum
  values are kept from the `gl` crate's constants.
* `image::open` is modelled by an oracle `decode : String → Except String (Nat × Nat)`
  returning the decoded image's (width, height) or an error message, since the
  decoder is an external collaborator.
* `set_background` returns the new state together with a `LoadEffects` record
  of the observable side effects of the call: how many decode attempts were
  made, which texture uploads happened, and which warnings were logged.
* `draw` and `update_uniforms` take `&self` in the source, so they are pure
  functions from the state to the emitted GL command trace.
-/

namespace Background

/-- GL enum value `GL_SRC_ALPHA`. -/
def SRC_ALPHA : Nat := 0x0302

/-- GL enum value `GL_ONE_MINUS_SRC_ALPHA`. -/
def ONE_MINUS_SRC_ALPHA : Nat := 0x0303

/-- GL enum value `GL_ONE`. -/
def ONE : Nat := 1

/-- GL enum value `GL_TRIANGLES`. -/
def TRIANGLES : Nat := 0x0004

/-- GL enum value `GL_SRC1_COLOR`. -/
def SRC1_COLOR : Nat := 0x88F9

/-- GL enum value `GL_ONE_MINUS_SRC1_COLOR`. -/
def ONE_MINUS_SRC1_COLOR : Nat := 0x88FA

/-- The `BackgroundImage` struct: metadata for the currently loaded image.
`ratio` is width/height of the decoded image (`0` together with `height = 0`
is the failure sentinel). -/
structure BackgroundImage where
  path : String
  height : Nat
  ratio : ℚ
deriving Repr, DecidableEq

/-- The `BackgroundRenderer` struct.  GL handles (`vao`, `texture`, the shader
`program` id and the resolved uniform location `u_size_info`) are opaque
numbers handed out by the GL/shader collaborators at construction time. -/
structure BackgroundRenderer where
  vao : Nat
  u_size_info : Int
  program : Nat
  vertices : List (ℚ × ℚ × ℚ × ℚ)
  texture : Nat
  background_image : Option BackgroundImage
deriving Repr, DecidableEq

/-- The fixed 6-vertex full-screen quad built in `BackgroundRenderer::new`:
two triangles over clip space, interleaved (x, y, u, v). -/
def initVertices : List (ℚ × ℚ × ℚ × ℚ) :=
  [ (-1, 1, 0, 0),
    (1, 1, 1, 0),
    (1, -1, 1, 1),
    (1, -1, 1, 1),
    (-1, -1, 0, 1),
    (-1, 1, 0, 0) ]

/-- `BackgroundRenderer::new`, after the GL collaborators have handed out the
object handles and the shader program has linked: the state it returns.
`background_image` starts out `none`. -/
def BackgroundRenderer.new (vao texture program : Nat) (u_size_info : Int) :
    BackgroundRenderer :=
  { vao := vao
    u_size_info := u_size_info
    program := program
    vertices := initVertices
    texture := texture
    background_image := none }

/-- `BackgroundRenderer::should_draw`. -/
def BackgroundRenderer.should_draw (r : BackgroundRenderer) : Bool :=
  r.background_image.isSome

/-- The observable side effects of one `set_background` call:
`decodeAttempts` counts calls to `image::open`; `textureUploads` records the
(width, height) of each `TexImage2D` upload; `warnings` records each
`warn!("failed to load image ({}): {}", path, e)` as the pair (path, error). -/
structure LoadEffects where
  decodeAttempts : Nat
  textureUploads : List (Nat × Nat)
  warnings : List (String × String)
deriving Repr, DecidableEq

/-- No observable effects: the early-return path of `set_background`. -/
def LoadEffects.none : LoadEffects :=
  { decodeAttempts := 0, textureUploads := [], warnings := [] }

/-- The body of `set_background` past the early return: `match open(path)`.
On success, store `{path, height, ratio = w/h}` and upload the pixels; on
failure, log one warning and store the sentinel `{path, height = 0,
ratio = 0}` with no upload. -/
def BackgroundRenderer.loadBackground (decode : String → Except String (Nat × Nat))
    (r : BackgroundRenderer) (path : String) : BackgroundRenderer × LoadEffects :=
  match decode path with
  | .ok (w, h) =>
      ({ r with
          background_image :=
            some { path := path, height := h, ratio := (w : ℚ) / (h : ℚ) } },
       { decodeAttempts := 1, textureUploads := [(w, h)], warnings := [] })
  | .error e =>
      ({ r with
          background_image :=
            some { path := path, height := 0, ratio := 0 } },
       { decodeAttempts := 1, textureUploads := [], warnings := [(path, e)] })

/-- `BackgroundRenderer::set_background`, parametrised by the decode oracle
`decode` standing for `image::open` composed with `into_rgb8` (returning the
decoded width and height).  Returns the new state and the effects of the call.

Mirrors the source: an early return with no effects when a background is
recorded and its path equals the requested one; otherwise fall through to the
decode (`loadBackground`). -/
def BackgroundRenderer.set_background (decode : String → Except String (Nat × Nat))
    (r : BackgroundRenderer) (path : String) : BackgroundRenderer × LoadEffects :=
  match r.background_image with
  | some i =>
      if i.path = path then (r, LoadEffects.none)
      else r.loadBackground decode path
  | none => r.loadBackground decode path

/-- The `SizeInfo` collaborator, restricted to the two accessors this file
uses: the viewport's pixel `width` and `height`. -/
structure SizeInfo where
  width : ℚ
  height : ℚ
deriving Repr, DecidableEq

/-- One GL call relevant to the draw pipeline, as an event. -/
inductive GLCmd where
  | blendFuncSeparate (srcRGB dstRGB srcAlpha dstAlpha : Nat)
  | bindVertexArray (vao : Nat)
  | useProgram (program : Nat)
  | bindTexture (texture : Nat)
  | uniform3f (loc : Int) (x y z : ℚ)
  | drawArrays (mode : Nat) (first count : Nat)
  | blendFunc (src dst : Nat)
deriving Repr, DecidableEq

/-- `BackgroundRenderer::update_uniforms` as the trace of GL calls it makes:
one `Uniform3f` upload when image metadata is present, nothing otherwise. -/
def BackgroundRenderer.update_uniforms (r : BackgroundRenderer)
    (size_info : SizeInfo) (alpha : ℚ) : List GLCmd :=
  match r.background_image with
  | some img =>
      [.uniform3f r.u_size_info
        (img.ratio * (img.height : ℚ) / size_info.width)
        ((img.height : ℚ) / size_info.height)
        alpha]
  | none => []

/-- `BackgroundRenderer::draw` as the trace of GL calls it makes. -/
def BackgroundRenderer.draw (r : BackgroundRenderer) (size : SizeInfo)
    (alpha : ℚ) : List GLCmd :=
  [ .blendFuncSeparate SRC_ALPHA ONE_MINUS_SRC_ALPHA SRC_ALPHA ONE,
    .bindVertexArray r.vao,
    .useProgram r.program,
    .bindTexture r.texture ]
  ++ r.update_uniforms size alpha
  ++ [ .drawArrays TRIANGLES 0 r.vertices.length,
       .bindTexture 0,
       .bindVertexArray 0,
       .useProgram 0,
       .blendFunc SRC1_COLOR ONE_MINUS_SRC1_COLOR ]

/-- Specification predicate (for stating theorems): the early-return test of
`set_background` — a background is recorded and its path equals the requested
one, compared by exact string equality. -/
def cacheHit (r : BackgroundRenderer) (p : String) : Bool :=
  match r.background_image with
  | some i => i.path = p
  | none => false

/-- A decode oracle for concrete test scenarios: "valid.png" decodes to a
400×200 image, every other path fails like a missing file. -/
def demoDecode : String → Except String (Nat × Nat) :=
  fun p => if p = "valid.png" then .ok (400, 200) else .error "No such file or directory"

/-- A freshly constructed renderer (handles 1, 2, 3, uniform location 0). -/
def demoRenderer : BackgroundRenderer := BackgroundRenderer.new 1 2 3 0

/-- A renderer already holding the failure sentinel recorded for "bg.png". -/
def cachedRenderer : BackgroundRenderer :=
  { demoRenderer with
      background_image := some { path := "bg.png", height := 0, ratio := 0 } }

/-- A renderer holding successfully-loaded metadata: height 200, ratio 2
(e.g. a 400×200 source). -/
def demo200Renderer : BackgroundRenderer :=
  { demoRenderer with
      background_image := some { path := "valid.png", height := 200, ratio := 2 } }

/-! ### Helper lemmas about `loadBackground` and `set_background` -/

theorem loadBackground_ok (d : String → Except String (Nat × Nat))
    (r : BackgroundRenderer) (p : String) (w h : Nat) (hd : d p = .ok (w, h)) :
    r.loadBackground d p =
      ({ r with
          background_image :=
            some { path := p, height := h, ratio := (w : ℚ) / (h : ℚ) } },
       { decodeAttempts := 1, textureUploads := [(w, h)], warnings := [] }) := by
  simp [BackgroundRenderer.loadBackground, hd]

theorem loadBackground_error (d : String → Except String (Nat × Nat))
    (r : BackgroundRenderer) (p e : String) (hd : d p = .error e) :
    r.loadBackground d p =
      ({ r with
          background_image := some { path := p, height := 0, ratio := 0 } },
       { decodeAttempts := 1, textureUploads := [], warnings := [(p, e)] }) := by
  simp [BackgroundRenderer.loadBackground, hd]

theorem loadBackground_decodeAttempts (d : String → Except String (Nat × Nat))
    (r : BackgroundRenderer) (p : String) :
    (r.loadBackground d p).2.decodeAttempts = 1 := by
  cases hd : d p with
  | error e => rw [loadBackground_error d r p e hd]
  | ok a =>
      obtain ⟨w, h⟩ := a
      rw [loadBackground_ok d r p w h hd]

theorem loadBackground_path (d : String → Except String (Nat × Nat))
    (r : BackgroundRenderer) (p : String) :
    ∃ i, ((r.loadBackground d p).1).background_image = some i ∧ i.path = p := by
  cases hd : d p with
  | error e => exact ⟨_, by rw [loadBackground_error d r p e hd], rfl⟩
  | ok a =>
      obtain ⟨w, h⟩ := a
      exact ⟨_, by rw [loadBackground_ok d r p w h hd], rfl⟩

theorem loadBackground_frame (d : String → Except String (Nat × Nat))
    (r : BackgroundRenderer) (p : String) :
    (r.loadBackground d p).1 =
      { r with background_image := ((r.loadBackground d p).1).background_image } := by
  cases hd : d p with
  | error e => rw [loadBackground_error d r p e hd]
  | ok a =>
      obtain ⟨w, h⟩ := a
      rw [loadBackground_ok d r p w h hd]

theorem set_background_cached (d : String → Except String (Nat × Nat))
    (r : BackgroundRenderer) (p : String) (i : BackgroundImage)
    (hi : r.background_image = some i) (hp : i.path = p) :
    r.set_background d p = (r, LoadEffects.none) := by
  unfold BackgroundRenderer.set_background
  rw [hi]
  simp [hp]

theorem set_background_not_cached (d : String → Except String (Nat × Nat))
    (r : BackgroundRenderer) (p : String) (h : cacheHit r p = false) :
    r.set_background d p = r.loadBackground d p := by
  unfold BackgroundRenderer.set_background
  unfold cacheHit at h
  cases hr : r.background_image with
  | none => rfl
  | some i =>
      rw [hr] at h
      simp only [decide_eq_false_iff_not] at h
      simp [h]

theorem cacheHit_iff (r : BackgroundRenderer) (p : String) :
    cacheHit r p = true ↔ ∃ i, r.background_image = some i ∧ i.path = p := by
  unfold cacheHit
  cases hr : r.background_image with
  | none => simp
  | some i => simp

theorem set_background_self_path (d : String → Except String (Nat × Nat))
    (r : BackgroundRenderer) (p : String) :
    ∃ i, ((r.set_background d p).1).background_image = some i ∧ i.path = p := by
  by_cases hc : cacheHit r p = true
  · obtain ⟨i, hi, hp⟩ := (cacheHit_iff r p).mp hc
    rw [set_background_cached d r p i hi hp]
    exact ⟨i, hi, hp⟩
  · rw [set_background_not_cached d r p (by simpa using hc)]
    exact loadBackground_path d r p

/-! ### Claim theorems -/

/-- C1 (counterexample): the claim quantifies over *every* renderer state, but
for a state whose recorded path already equals the requested path, calling
`set_background` twice in a row performs zero decode attempts, not exactly
one. -/
theorem set_background_twice_cex :
    ¬ ((cachedRenderer.set_background demoDecode "bg.png").2.decodeAttempts +
        (((cachedRenderer.set_background demoDecode "bg.png").1).set_background
          demoDecode "bg.png").2.decodeAttempts = 1) := by
  decide

/-- C1 (amended): calling `set_background p` twice in a row performs exactly
one decode attempt when the recorded path does not already equal `p` (and
zero when it does); on a successful decode the one call uploads the texture
exactly once; the second call is always a no-op with no decode, no upload, no
log and no state mutation; and whenever a background is configured whose
recorded path equals the requested path, `set_background` is a no-op. -/
theorem set_background_twice (d : String → Except String (Nat × Nat))
    (r : BackgroundRenderer) (p : String) :
    (r.set_background d p).2.decodeAttempts = (if cacheHit r p then 0 else 1) ∧
    ((r.set_background d p).1).set_background d p =
      ((r.set_background d p).1, LoadEffects.none) ∧
    (cacheHit r p = true → r.set_background d p = (r, LoadEffects.none)) ∧
    (∀ w h, cacheHit r p = false → d p = .ok (w, h) →
      (r.set_background d p).2.textureUploads = [(w, h)]) := by
  refine ⟨?_, ?_, ?_, ?_⟩
  · by_cases hc : cacheHit r p = true
    · obtain ⟨i, hi, hp⟩ := (cacheHit_iff r p).mp hc
      rw [set_background_cached d r p i hi hp, hc]
      rfl
    · rw [set_background_not_cached d r p (by simpa using hc),
        loadBackground_decodeAttempts]
      simp [Bool.eq_false_iff.mpr hc]
  · obtain ⟨i, hi, hp⟩ := set_background_self_path d r p
    exact set_background_cached d _ p i hi hp
  · intro hc
    obtain ⟨i, hi, hp⟩ := (cacheHit_iff r p).mp hc
    exact set_background_cached d r p i hi hp
  · intro w h hc hd
    rw [set_background_not_cached d r p hc, loadBackground_ok d r p w h hd]

/-- C2: when the decode of `p` fails (and `p` is not the recorded path, so a
decode is attempted at all), `set_background p` logs exactly one warning
carrying the path and the underlying error, records the failure sentinel
`{path := p, height := 0, ratio := 0}` as the current image, performs no
texture upload, and a second `set_background p` is a complete no-op: zero
warnings and zero decode attempts. -/
theorem set_background_failure (d : String → Except String (Nat × Nat))
    (r : BackgroundRenderer) (p e : String)
    (hmiss : cacheHit r p = false) (hfail : d p = .error e) :
    r.set_background d p =
      ({ r with
          background_image := some { path := p, height := 0, ratio := 0 } },
       { decodeAttempts := 1, textureUploads := [], warnings := [(p, e)] }) ∧
    ((r.set_background d p).1).set_background d p =
      ((r.set_background d p).1, LoadEffects.none) := by
  have h1 : r.set_background d p =
      ({ r with
          background_image := some { path := p, height := 0, ratio := 0 } },
       { decodeAttempts := 1, textureUploads := [], warnings := [(p, e)] }) := by
    rw [set_background_not_cached d r p hmiss, loadBackground_error d r p e hfail]
  refine ⟨h1, ?_⟩
  exact set_background_cached d _ p _ (by rw [h1]) rfl

/-- C2 witness: a fresh renderer, the failing path "missing.png". -/
theorem set_background_failure_witness :
    demoRenderer.set_background demoDecode "missing.png" =
      ({ demoRenderer with
          background_image :=
            some { path := "missing.png", height := 0, ratio := 0 } },
       { decodeAttempts := 1, textureUploads := [],
         warnings := [("missing.png", "No such file or directory")] }) ∧
    ((demoRenderer.set_background demoDecode "missing.png").1).set_background
        demoDecode "missing.png" =
      ((demoRenderer.set_background demoDecode "missing.png").1,
        LoadEffects.none) :=
  set_background_failure demoDecode demoRenderer "missing.png"
    "No such file or directory" rfl rfl

/-- C3: when image metadata is present, `update_uniforms` uploads exactly the
uniform vector (ratio · height / viewportWidth, height / viewportHeight,
opacity). -/
theorem update_uniforms_formula (r : BackgroundRenderer) (img : BackgroundImage)
    (size : SizeInfo) (alpha : ℚ) (h : r.background_image = some img) :
    r.update_uniforms size alpha =
      [GLCmd.uniform3f r.u_size_info
        (img.ratio * (img.height : ℚ) / size.width)
        ((img.height : ℚ) / size.height) alpha] := by
  unfold BackgroundRenderer.update_uniforms
  rw [h]

/-- C3 witness: the claim's concrete instance — height 200, ratio 2, viewport
800×600, opacity 1 gives the uniform (1/2, 1/3, 1). -/
theorem update_uniforms_formula_witness :
    demo200Renderer.update_uniforms { width := 800, height := 600 } 1 =
      [GLCmd.uniform3f 0 (1/2) (1/3) 1] := by
  rw [update_uniforms_formula demo200Renderer
    { path := "valid.png", height := 200, ratio := 2 }
    { width := 800, height := 600 } 1 rfl]
  norm_num [demo200Renderer, demoRenderer, BackgroundRenderer.new]

/-- C4: `should_draw` is false on a freshly constructed renderer, true after
any `set_background` call (success or failure), and in general it holds
exactly when image metadata is present, sentinel or not. -/
theorem should_draw_semantics (vao texture program : Nat) (u : Int)
    (d : String → Except String (Nat × Nat))
    (r : BackgroundRenderer) (p : String) :
    (BackgroundRenderer.new vao texture program u).should_draw = false ∧
    ((r.set_background d p).1).should_draw = true ∧
    (r.should_draw = true ↔ r.background_image.isSome = true) := by
  refine ⟨rfl, ?_, Iff.rfl⟩
  obtain ⟨i, hi, _⟩ := set_background_self_path d r p
  simp [BackgroundRenderer.should_draw, hi]

/-- C5: for the failure sentinel (height 0, ratio 0) the computed uniform is
(0, 0, opacity), whatever the viewport and opacity. -/
theorem update_uniforms_sentinel (r : BackgroundRenderer) (p : String)
    (size : SizeInfo) (alpha : ℚ)
    (h : r.background_image = some { path := p, height := 0, ratio := 0 }) :
    r.update_uniforms size alpha = [GLCmd.uniform3f r.u_size_info 0 0 alpha] := by
  unfold BackgroundRenderer.update_uniforms
  rw [h]
  norm_num

/-- C5 witness: the sentinel recorded for "bg.png", viewport 1920×1080,
opacity 1/2. -/
theorem update_uniforms_sentinel_witness :
    cachedRenderer.update_uniforms { width := 1920, height := 1080 } (1/2) =
      [GLCmd.uniform3f cachedRenderer.u_size_info 0 0 (1/2)] :=
  update_uniforms_sentinel cachedRenderer "bg.png"
    { width := 1920, height := 1080 } (1/2) rfl

/-- Helper: after `set_background p1`, requesting a different path `p2`
misses the cache and decodes exactly once. -/
theorem decode_on_path_change (d : String → Except String (Nat × Nat))
    (r : BackgroundRenderer) (p1 p2 : String) (hne : p1 ≠ p2) :
    (((r.set_background d p1).1).set_background d p2).2.decodeAttempts = 1 := by
  obtain ⟨i, hi, hp⟩ := set_background_self_path d r p1
  rw [set_background_not_cached d _ p2 ?_, loadBackground_decodeAttempts]
  unfold cacheHit
  rw [hi]
  simpa using hp ▸ hne

/-- C6: requesting a different path reloads: `set_background p1` then
`set_background p2` with p1 ≠ p2 makes exactly one additional decode attempt
on the second call. -/
theorem set_background_path_change (d : String → Except String (Nat × Nat))
    (r : BackgroundRenderer) (p1 p2 : String) (hne : p1 ≠ p2) :
    (((r.set_background d p1).1).set_background d p2).2.decodeAttempts = 1 :=
  decode_on_path_change d r p1 p2 hne

/-- C6 witness: loading "valid.png" then "missing.png" decodes once more. -/
theorem set_background_path_change_witness :
    (((demoRenderer.set_background demoDecode "valid.png").1).set_background
        demoDecode "missing.png").2.decodeAttempts = 1 :=
  set_background_path_change demoDecode demoRenderer "valid.png" "missing.png"
    (by decide)

/-- C7: the vertex sequence built at initialization has exactly 6 entries,
its positions all lie on the corners of the clip-space square spanning
(−1,−1) to (1,1) with both extreme corners present, and `set_background`
leaves it unchanged. (`draw` and `update_uniforms` take the state immutably
in the source — they are functions out of the state in this embedding — so
they cannot change it.) -/
theorem vertices_geometry (vao texture program : Nat) (u : Int)
    (d : String → Except String (Nat × Nat))
    (r : BackgroundRenderer) (p : String) :
    (BackgroundRenderer.new vao texture program u).vertices = initVertices ∧
    initVertices.length = 6 ∧
    (∀ v ∈ initVertices, (v.1 = -1 ∨ v.1 = 1) ∧ (v.2.1 = -1 ∨ v.2.1 = 1)) ∧
    ((-1, -1) ∈ initVertices.map fun v => (v.1, v.2.1)) ∧
    ((1, 1) ∈ initVertices.map fun v => (v.1, v.2.1)) ∧
    ((r.set_background d p).1).vertices = r.vertices := by
  refine ⟨rfl, rfl, by decide, by decide, by decide, ?_⟩
  by_cases hc : cacheHit r p = true
  · obtain ⟨i, hi, hp⟩ := (cacheHit_iff r p).mp hc
    rw [set_background_cached d r p i hi hp]
  · rw [set_background_not_cached d r p (by simpa using hc),
      loadBackground_frame d r p]

/-- C8: with no image metadata present, `update_uniforms` uploads nothing,
and `draw` still runs the full blend/bind/draw/unbind sequence with the
6-vertex draw call, only the uniform upload omitted. -/
theorem draw_without_image (r : BackgroundRenderer) (size : SizeInfo)
    (alpha : ℚ) (h : r.background_image = none)
    (hv : r.vertices = initVertices) :
    r.update_uniforms size alpha = [] ∧
    r.draw size alpha =
      [GLCmd.blendFuncSeparate SRC_ALPHA ONE_MINUS_SRC_ALPHA SRC_ALPHA ONE,
       GLCmd.bindVertexArray r.vao,
       GLCmd.useProgram r.program,
       GLCmd.bindTexture r.texture,
       GLCmd.drawArrays TRIANGLES 0 6,
       GLCmd.bindTexture 0,
       GLCmd.bindVertexArray 0,
       GLCmd.useProgram 0,
       GLCmd.blendFunc SRC1_COLOR ONE_MINUS_SRC1_COLOR] := by
  have hu : r.update_uniforms size alpha = [] := by
    unfold BackgroundRenderer.update_uniforms
    rw [h]
  refine ⟨hu, ?_⟩
  unfold BackgroundRenderer.draw
  rw [hu, hv]
  rfl

/-- C8 witness: a fresh renderer (no background yet), viewport 800×600,
opacity 1. -/
theorem draw_without_image_witness :
    demoRenderer.update_uniforms { width := 800, height := 600 } 1 = [] ∧
    demoRenderer.draw { width := 800, height := 600 } 1 =
      [GLCmd.blendFuncSeparate SRC_ALPHA ONE_MINUS_SRC_ALPHA SRC_ALPHA ONE,
       GLCmd.bindVertexArray demoRenderer.vao,
       GLCmd.useProgram demoRenderer.program,
       GLCmd.bindTexture demoRenderer.texture,
       GLCmd.drawArrays TRIANGLES 0 6,
       GLCmd.bindTexture 0,
       GLCmd.bindVertexArray 0,
       GLCmd.useProgram 0,
       GLCmd.blendFunc SRC1_COLOR ONE_MINUS_SRC1_COLOR] :=
  draw_without_image demoRenderer { width := 800, height := 600 } 1 rfl rfl

/-- C9: `set_background` mutates only the `background_image` slot: the VAO
handle, texture handle, program, uniform location and vertex sequence are all
unchanged, and the new state is the old one with only `background_image`
replaced. (The successful-case texture upload changes GPU pixel contents,
recorded in the call's effects, not renderer state.) -/
theorem set_background_frame (d : String → Except String (Nat × Nat))
    (r : BackgroundRenderer) (p : String) :
    (r.set_background d p).1 =
      { r with background_image := ((r.set_background d p).1).background_image } ∧
    ((r.set_background d p).1).vao = r.vao ∧
    ((r.set_background d p).1).texture = r.texture ∧
    ((r.set_background d p).1).program = r.program ∧
    ((r.set_background d p).1).u_size_info = r.u_size_info ∧
    ((r.set_background d p).1).vertices = r.vertices := by
  have hf : (r.set_background d p).1 =
      { r with background_image := ((r.set_background d p).1).background_image } := by
    by_cases hc : cacheHit r p = true
    · obtain ⟨i, hi, hp⟩ := (cacheHit_iff r p).mp hc
      rw [set_background_cached d r p i hi hp]
    · rw [set_background_not_cached d r p (by simpa using hc)]
      exact loadBackground_frame d r p
  exact ⟨hf, by rw [hf], by rw [hf], by rw [hf], by rw [hf], by rw [hf]⟩

/-- C10: the cache test is exact string equality of the recorded and
requested paths — `set_background` skips the decode exactly when a background
is recorded whose path is the identical string, and for any two distinct
strings (whatever they denote, whatever the decoder returns on them) the
second call decodes again. -/
theorem set_background_exact_string (d : String → Except String (Nat × Nat))
    (r : BackgroundRenderer) (p : String) :
    ((r.set_background d p).2.decodeAttempts = 0 ↔
      ∃ i, r.background_image = some i ∧ i.path = p) ∧
    (∀ p2, p ≠ p2 →
      (((r.set_background d p).1).set_background d p2).2.decodeAttempts = 1) := by
  constructor
  · rw [← cacheHit_iff]
    by_cases hc : cacheHit r p = true
    · obtain ⟨i, hi, hp⟩ := (cacheHit_iff r p).mp hc
      rw [set_background_cached d r p i hi hp]
      simpa [LoadEffects.none] using hc
    · rw [set_background_not_cached d r p (by simpa using hc),
        loadBackground_decodeAttempts]
      simpa using hc
  · intro p2 hne
    exact decode_on_path_change d r p p2 hne

end Background
